import Mathlib

/-!
Verification of the simulation core of the Front-End-Pour-Simulation-Routage
repository: the simulation engine (src/src/lib/simulation-engine.ts), the
per-parcel loop body and the reducer-style store (src/src/hooks/useSimulation.ts).

Conventions of the embedding:
- JavaScript numbers are idealised as exact rationals; the one place where a
  non-finite IEEE-754 value can arise in the engine (dividing by the total
  route distance) is modelled explicitly by `JSNum`.
- `Date` values are epoch milliseconds as rationals; a function of the source
  that reads the current time (`new Date()`, `Date.now()`) takes it as an
  explicit `now` argument.
- JavaScript `Map`s are association lists in insertion order; `Map.set` on a
  present key overwrites in place, otherwise appends.
- The helpers of src/src/lib/wkt-parser.ts (`interpolateAlongPath`,
  `isWithinRadius`, `parseWKTLineString`) are not among the repository files
  under src/; they are modelled from the spec where marked below.
-/

namespace RoutageSim

/-- Geographic point `{lat, lng}` as the core uses it throughout. -/
structure Position where
  lat : ℚ
  lng : ℚ
  deriving DecidableEq, Repr

/-- Parcel lifecycle states (spec section 3; string literals in the source). -/
inductive ParcelState where
  | PLANNED
  | TRANSIT
  | INCIDENT
  | DELIVERED
  deriving DecidableEq, Repr

/-- Incident hazard kinds (src/src/lib/api-client.ts, `IncidentRequest`). -/
inductive IncidentType where
  | ROAD_CLOSURE
  | TRAFFIC
  | VEHICLE_BREAKDOWN
  | WEATHER
  deriving DecidableEq, Repr

/-- `RouteResponse` (src/src/lib/api-client.ts lines 106-111). -/
structure RouteResponse where
  id : String
  routeGeometry : String
  totalDistanceKm : ℚ
  estimatedDurationMin : ℚ
  deriving DecidableEq, Repr

/-- `ParcelResponse` fields the simulation core reads. -/
structure ParcelData where
  id : String
  trackingCode : String
  pickupLocation : String
  deriving DecidableEq, Repr

/-- A JavaScript IEEE-754 number as it arises in the progress arithmetic of
the engine: a finite value (idealised as an exact rational), an infinity, or
NaN. Only the division by the total route distance can leave the finite
range. -/
inductive JSNum where
  | fin (q : ℚ)
  | posInf
  | negInf
  | nan
  deriving DecidableEq, Repr

/-- JavaScript addition on such numbers. -/
def JSNum.add : JSNum → JSNum → JSNum
  | .fin a, .fin b => .fin (a + b)
  | .fin _, .posInf => .posInf
  | .fin _, .negInf => .negInf
  | .posInf, .fin _ => .posInf
  | .negInf, .fin _ => .negInf
  | .posInf, .posInf => .posInf
  | .negInf, .negInf => .negInf
  | .posInf, .negInf => .nan
  | .negInf, .posInf => .nan
  | .nan, _ => .nan
  | _, .nan => .nan

/-- JavaScript division of two finite numbers: `a / 0` is an infinity for
`a ≠ 0` and NaN for `0 / 0` (IEEE 754, signed zero ignored). -/
def JSNum.divFin (a b : ℚ) : JSNum :=
  if b = 0 then
    if 0 < a then .posInf else if a < 0 then .negInf else .nan
  else .fin (a / b)

/-- JavaScript `Math.min(x, 1)`: NaN when `x` is NaN. -/
def JSNum.min1 : JSNum → JSNum
  | .fin a => .fin (min a 1)
  | .posInf => .fin 1
  | .negInf => .negInf
  | .nan => .nan

/-- JavaScript comparison `x >= c`: false whenever `x` is NaN. -/
def JSNum.geRat (x : JSNum) (c : ℚ) : Bool :=
  match x with
  | .fin a => decide (c ≤ a)
  | .posInf => true
  | .negInf => false
  | .nan => false

/-- The fraction handed to the modelled path interpolation: the spec leaves
interpolation at a non-finite progress undefined, so a degenerate value is
read as an end of the range (no claim depends on this choice). -/
def JSNum.toFrac : JSNum → ℚ
  | .fin q => q
  | .posInf => 1
  | .negInf => 0
  | .nan => 0

/-- `SimulatedParcel` (spec section 3; field names of the source). -/
structure SimulatedParcel where
  id : String
  trackingCode : String
  parcelData : ParcelData
  route : Option RouteResponse
  routePath : List Position
  currentPosition : Position
  state : ParcelState
  progress : JSNum
  pathIndex : Nat
  startTime : Option ℚ
  estimatedArrival : Option ℚ
  actualArrival : Option ℚ
  speed : ℚ
  affectedByIncidents : List String
  deriving DecidableEq, Repr

/-- `Incident` (spec section 3; field names of the source). -/
structure Incident where
  id : String
  type : IncidentType
  position : Position
  radius : ℚ
  affectedRouteIds : List String
  timestamp : ℚ
  resolved : Bool
  description : String
  deriving DecidableEq, Repr

/-- Modelled from the spec: `isWithinRadius` of src/src/lib/wkt-parser.ts is
not among the repository files under src/. The geofence contract (spec
section 6 and glossary) is a circular-region test under a consistent planar
distance metric; a planar squared-distance comparison realises it. No claim
depends on the particular metric. -/
def isWithinRadius (p center : Position) (radiusKm : ℚ) : Bool :=
  decide ((p.lat - center.lat) * (p.lat - center.lat)
    + (p.lng - center.lng) * (p.lng - center.lng) ≤ radiusKm * radiusKm)

/-- Result shape of the path interpolation: `{ position, segmentIndex }`. -/
structure InterpResult where
  position : Position
  segmentIndex : Nat
  deriving DecidableEq, Repr

/-- Modelled from the spec: `interpolateAlongPath` of src/src/lib/wkt-parser.ts
is not among the repository files under src/. Per spec section 4.1 it is a
linear interpolation along consecutive path points proportional to the
fractional progress; segment lengths are taken uniform here, and no claim
depends on the interpolated coordinates themselves. -/
def interpolateAlongPath (path : List Position) (progress : ℚ) : InterpResult :=
  match path with
  | [] => ⟨⟨0, 0⟩, 0⟩
  | [p] => ⟨p, 0⟩
  | p0 :: p1 :: rest =>
      let pts := p0 :: p1 :: rest
      let segs : Nat := pts.length - 1
      let t : ℚ := max 0 (min progress 1) * segs
      let i : Nat := min t.floor.toNat (segs - 1)
      let a := pts.getD i p0
      let b := pts.getD (i + 1) p0
      let frac : ℚ := t - i
      ⟨⟨a.lat + frac * (b.lat - a.lat), a.lng + frac * (b.lng - a.lng)⟩, i⟩

/-- `SimulationEngine.updateParcelPosition` (src/src/lib/simulation-engine.ts
lines 26-64). `now` stands for the `new Date()` taken when `actualArrival` is
stamped. The progress arithmetic follows the JavaScript number semantics of
`JSNum`; everything else is exact rational arithmetic. -/
def updateParcelPosition (parcel : SimulatedParcel)
    (deltaTimeMs simulationSpeed now : ℚ) : SimulatedParcel :=
  match parcel.route with
  | none => parcel
  | some route =>
      if parcel.state ≠ ParcelState.TRANSIT ∨ parcel.routePath = [] then parcel
      else
        let actualSpeed := parcel.speed * simulationSpeed
        let hoursElapsed := deltaTimeMs / 1000 / 60 / 60
        let distanceTraveledKm := actualSpeed * hoursElapsed
        let totalDistanceKm := route.totalDistanceKm
        let progressIncrement := JSNum.divFin distanceTraveledKm totalDistanceKm
        let newProgress := (parcel.progress.add progressIncrement).min1
        let interp := interpolateAlongPath parcel.routePath newProgress.toFrac
        let isDelivered := newProgress.geRat (99 / 100)
        { parcel with
          currentPosition := interp.position
          progress := newProgress
          pathIndex := interp.segmentIndex
          state := if isDelivered then ParcelState.DELIVERED else parcel.state
          actualArrival := if isDelivered then some now else parcel.actualArrival }

/-- `SimulationEngine.checkIncidentCollision` (lines 69-88): the iteration
over `incidents.values()` (insertion order) is the list order. -/
def checkIncidentCollision (parcel : SimulatedParcel) :
    List Incident → Option Incident
  | [] => none
  | incident :: rest =>
      if incident.resolved then checkIncidentCollision parcel rest
      else
        let isAffected := isWithinRadius parcel.currentPosition incident.position
          (incident.radius / 1000)
        if isAffected && !(parcel.affectedByIncidents.contains incident.id) then
          some incident
        else checkIncidentCollision parcel rest

/-- `SimulationEngine.createSimulatedParcel` (lines 93-119). -/
def createSimulatedParcel (parcelData : ParcelData) (route : RouteResponse)
    (routePath : List Position) (now : ℚ) : SimulatedParcel :=
  { id := parcelData.id
    trackingCode := parcelData.trackingCode
    parcelData := parcelData
    route := some route
    routePath := routePath
    currentPosition := routePath.headD ⟨0, 0⟩
    state := ParcelState.PLANNED
    progress := JSNum.fin 0
    pathIndex := 0
    startTime := none
    estimatedArrival := some (now + route.estimatedDurationMin * 60 * 1000)
    actualArrival := none
    speed := 40
    affectedByIncidents := [] }

/-- `SimulationEngine.startParcel` (lines 124-130). -/
def startParcel (parcel : SimulatedParcel) (now : ℚ) : SimulatedParcel :=
  { parcel with state := ParcelState.TRANSIT, startTime := some now }

/-- `SimulationEngine.updateParcelRoute` (lines 135-153): reanchor to a new
route at the same progress value. -/
def updateParcelRoute (parcel : SimulatedParcel) (newRoute : RouteResponse)
    (newRoutePath : List Position) (now : ℚ) : SimulatedParcel :=
  let interp := interpolateAlongPath newRoutePath parcel.progress.toFrac
  { parcel with
    route := some newRoute
    routePath := newRoutePath
    currentPosition := interp.position
    state := ParcelState.TRANSIT
    estimatedArrival := some (now + newRoute.estimatedDurationMin * 60 * 1000) }

/-- `SimulationEngine.markParcelIncident` (lines 158-167). -/
def markParcelIncident (parcel : SimulatedParcel) (incidentId : String) :
    SimulatedParcel :=
  { parcel with
    state := ParcelState.INCIDENT
    affectedByIncidents := parcel.affectedByIncidents ++ [incidentId] }

/-- Per-parcel body of the simulation loop (src/src/hooks/useSimulation.ts
lines 148-178): a TRANSIT parcel is advanced, the advanced parcel is run
through collision detection, and on a hit it is marked INCIDENT. -/
def tickParcel (parcel : SimulatedParcel) (incidents : List Incident)
    (deltaTimeMs speed now : ℚ) : SimulatedParcel :=
  if parcel.state = ParcelState.TRANSIT then
    let updated := updateParcelPosition parcel deltaTimeMs speed now
    match checkIncidentCollision updated incidents with
    | some incident => markParcelIncident updated incident.id
    | none => updated
  else parcel

/-- `GeoPointResponse` (src/src/lib/api-client.ts). -/
structure GeoPointResponse where
  id : String
  address : String
  latitude : ℚ
  longitude : ℚ
  type : String
  deriving DecidableEq, Repr

/-- JavaScript `Map` lookup, on the insertion-ordered association list. -/
def getEntry {α : Type} (m : List (String × α)) (k : String) : Option α :=
  (m.find? (fun e => e.1 == k)).map (fun e => e.2)

/-- JavaScript `Map.set`: overwrite in place for a present key (insertion
order kept), append for a new one. -/
def setEntry {α : Type} (m : List (String × α)) (k : String) (v : α) :
    List (String × α) :=
  if m.any (fun e => e.1 == k) then
    m.map (fun e => if e.1 == k then (k, v) else e)
  else m ++ [(k, v)]

/-- JavaScript `Map.delete`. -/
def removeEntry {α : Type} (m : List (String × α)) (k : String) :
    List (String × α) :=
  m.filter (fun e => !(e.1 == k))

/-- `Partial<SimulatedParcel>`: the update payload of `UPDATE_PARCEL`. A
present field overrides the stored one under object spread. -/
structure PartialParcel where
  id : Option String := none
  trackingCode : Option String := none
  parcelData : Option ParcelData := none
  route : Option (Option RouteResponse) := none
  routePath : Option (List Position) := none
  currentPosition : Option Position := none
  state : Option ParcelState := none
  progress : Option JSNum := none
  pathIndex : Option Nat := none
  startTime : Option (Option ℚ) := none
  estimatedArrival : Option (Option ℚ) := none
  actualArrival : Option (Option ℚ) := none
  speed : Option ℚ := none
  affectedByIncidents : Option (List String) := none
  deriving DecidableEq, Repr

/-- The object spread `{ ...existing, ...updates }` of the reducer. -/
def mergeParcel (p : SimulatedParcel) (u : PartialParcel) : SimulatedParcel :=
  { id := u.id.getD p.id
    trackingCode := u.trackingCode.getD p.trackingCode
    parcelData := u.parcelData.getD p.parcelData
    route := u.route.getD p.route
    routePath := u.routePath.getD p.routePath
    currentPosition := u.currentPosition.getD p.currentPosition
    state := u.state.getD p.state
    progress := u.progress.getD p.progress
    pathIndex := u.pathIndex.getD p.pathIndex
    startTime := u.startTime.getD p.startTime
    estimatedArrival := u.estimatedArrival.getD p.estimatedArrival
    actualArrival := u.actualArrival.getD p.actualArrival
    speed := u.speed.getD p.speed
    affectedByIncidents := u.affectedByIncidents.getD p.affectedByIncidents }

/-- A full parcel as an update payload: the hook dispatches `UPDATE_PARCEL`
with a whole `SimulatedParcel` as `updates`, every field present. -/
def PartialParcel.ofParcel (p : SimulatedParcel) : PartialParcel :=
  { id := some p.id
    trackingCode := some p.trackingCode
    parcelData := some p.parcelData
    route := some p.route
    routePath := some p.routePath
    currentPosition := some p.currentPosition
    state := some p.state
    progress := some p.progress
    pathIndex := some p.pathIndex
    startTime := some p.startTime
    estimatedArrival := some p.estimatedArrival
    actualArrival := some p.actualArrival
    speed := some p.speed
    affectedByIncidents := some p.affectedByIncidents }

/-- `SimulationState` (src/src/hooks/useSimulation.ts lines 44-53). -/
structure SimulationState where
  parcels : List (String × SimulatedParcel)
  incidents : List (String × Incident)
  hubs : List GeoPointResponse
  isPlaying : Bool
  speed : ℚ
  incidentPlacementMode : Bool
  selectedIncidentType : Option IncidentType
  selectedParcelId : Option String
  deriving DecidableEq, Repr

/-- `SimulationAction` (src/src/hooks/useSimulation.ts lines 26-38). -/
inductive SimulationAction where
  | SET_HUBS (hubs : List GeoPointResponse)
  | ADD_PARCEL (parcel : SimulatedParcel)
  | UPDATE_PARCEL (id : String) (updates : PartialParcel)
  | REMOVE_PARCEL (id : String)
  | ADD_INCIDENT (incident : Incident)
  | RESOLVE_INCIDENT (id : String)
  | PLAY
  | PAUSE
  | SET_SPEED (speed : ℚ)
  | TOGGLE_INCIDENT_MODE (active : Bool) (itype : Option IncidentType)
  | SELECT_PARCEL (id : Option String)
  | UPDATE_ALL_PARCELS (parcels : List (String × SimulatedParcel))

/-- `simulationReducer` (src/src/hooks/useSimulation.ts lines 55-124). The
fresh `Map` copies of the source are content-identical, so a branch that
only copies keeps the list. -/
def simulationReducer (state : SimulationState) :
    SimulationAction → SimulationState
  | .SET_HUBS hubs => { state with hubs := hubs }
  | .ADD_PARCEL p => { state with parcels := setEntry state.parcels p.id p }
  | .UPDATE_PARCEL id updates =>
      let newParcels :=
        match getEntry state.parcels id with
        | some existing => setEntry state.parcels id (mergeParcel existing updates)
        | none => state.parcels
      { state with parcels := newParcels }
  | .REMOVE_PARCEL id => { state with parcels := removeEntry state.parcels id }
  | .ADD_INCIDENT inc =>
      { state with incidents := setEntry state.incidents inc.id inc }
  | .RESOLVE_INCIDENT id =>
      let newIncidents :=
        match getEntry state.incidents id with
        | some incident =>
            setEntry state.incidents id { incident with resolved := true }
        | none => state.incidents
      { state with incidents := newIncidents }
  | .PLAY => { state with isPlaying := true }
  | .PAUSE => { state with isPlaying := false }
  | .SET_SPEED speed => { state with speed := speed }
  | .TOGGLE_INCIDENT_MODE active itype =>
      { state with incidentPlacementMode := active, selectedIncidentType := itype }
  | .SELECT_PARCEL id => { state with selectedParcelId := id }
  | .UPDATE_ALL_PARCELS parcels => { state with parcels := parcels }

/-- Whether one character sequence starts with another. -/
def charsStartWith : List Char → List Char → Bool
  | [], _ => true
  | _ :: _, [] => false
  | a :: as, b :: bs => a == b && charsStartWith as bs

/-- Whether a character sequence occurs inside another. -/
def charsContain (pat : List Char) : List Char → Bool
  | [] => pat.isEmpty
  | c :: cs => charsStartWith pat (c :: cs) || charsContain pat cs

/-- The validation `route.routeGeometry.toUpperCase().includes(LINESTRING)`
of `addParcel`. -/
def containsLineString (s : String) : Bool :=
  charsContain "LINESTRING".toList (s.toList.map Char.toUpper)

/-- Route branch of `addParcel` (src/src/hooks/useSimulation.ts lines
221-261). `decode` stands for `parseWKTLineString` of
src/src/lib/wkt-parser.ts, which is not among the repository files under
src/: per the Geometry Collaborator contract (spec section 6) it turns
line-string text into an ordered point sequence and signals failure with an
empty sequence, so it is a parameter here. The `Except` error carries the
user-facing toast message; the source returns right after showing it,
before any dispatch. -/
def addParcelWithRoute (decode : String → List Position)
    (parcelData : ParcelData) (route : RouteResponse) (now : ℚ) :
    Except String SimulatedParcel :=
  if route.routeGeometry.isEmpty then
    Except.error "Itineraire invalide: geometrie manquante"
  else if !(containsLineString route.routeGeometry) then
    Except.error "Itineraire invalide: format de geometrie incorrect"
  else
    let routePath := decode route.routeGeometry
    if routePath.length = 0 then
      Except.error "Impossible de tracer l itineraire (parsing WKT echoue)"
    else if routePath.length < 2 then
      Except.error "Itineraire invalide: moins de 2 points"
    else
      let simulatedParcel := createSimulatedParcel parcelData route routePath now
      Except.ok { simulatedParcel with
        state := ParcelState.TRANSIT
        startTime := some now }

/-- Effect of the route branch of `addParcel` on the store: `ADD_PARCEL` is
dispatched only when validation passed. -/
def addParcelEffect (decode : String → List Position) (st : SimulationState)
    (parcelData : ParcelData) (route : RouteResponse) (now : ℚ) :
    SimulationState :=
  match addParcelWithRoute decode parcelData route now with
  | Except.error _ => st
  | Except.ok p => simulationReducer st (SimulationAction.ADD_PARCEL p)

/-- Hook-level `startParcel` (src/src/hooks/useSimulation.ts lines 296-307):
look the parcel up, start it, dispatch `UPDATE_PARCEL` with the full started
record. -/
def startParcelAction (st : SimulationState) (parcelId : String) (now : ℚ) :
    SimulationState :=
  match getEntry st.parcels parcelId with
  | none => st
  | some parcel =>
      simulationReducer st
        (SimulationAction.UPDATE_PARCEL parcelId
          (PartialParcel.ofParcel (startParcel parcel now)))

/-! ## Fixtures -/

/-- The `initialState` of the hook (src/src/hooks/useSimulation.ts lines 44-53). -/
def initialState : SimulationState :=
  { parcels := [], incidents := [], hubs := [], isPlaying := false, speed := 1,
    incidentPlacementMode := false, selectedIncidentType := none,
    selectedParcelId := none }

/-- A route of 10 km, as in the delivery scenario of spec section 8. -/
def routeA : RouteResponse :=
  { id := "route-a", routeGeometry := "LINESTRING(9.70 4.05, 9.71 4.05)",
    totalDistanceKm := 10, estimatedDurationMin := 15 }

def parcelDataA : ParcelData :=
  { id := "parcel-a", trackingCode := "TRK-A", pickupLocation := "hub-1" }

def pathA : List Position := [⟨0, 0⟩, ⟨1, 0⟩]

/-- The scenario parcel of spec section 8: speed 40, total distance 10,
progress 0, in TRANSIT. -/
def parcelA : SimulatedParcel :=
  { id := "parcel-a", trackingCode := "TRK-A", parcelData := parcelDataA,
    route := some routeA, routePath := pathA, currentPosition := ⟨0, 0⟩,
    state := ParcelState.TRANSIT, progress := JSNum.fin 0, pathIndex := 0,
    startTime := some 0, estimatedArrival := some 900000, actualArrival := none,
    speed := 40, affectedByIncidents := [] }

/-! ## Engine unfolding helpers -/

/-- The new progress value the engine computes for a moving parcel. -/
def advanceProgress (p : SimulatedParcel) (r : RouteResponse) (dt mult : ℚ) :
    JSNum :=
  (p.progress.add (JSNum.divFin (p.speed * mult * (dt / 1000 / 60 / 60))
    r.totalDistanceKm)).min1

theorem advance_progress_eq (p : SimulatedParcel) (r : RouteResponse)
    (dt mult now : ℚ) (hstate : p.state = ParcelState.TRANSIT)
    (hroute : p.route = some r) (hpath : p.routePath ≠ []) :
    (updateParcelPosition p dt mult now).progress = advanceProgress p r dt mult := by
  simp only [updateParcelPosition, hroute]
  rw [if_neg]
  · rfl
  · simp [hstate, hpath]

theorem advance_state_eq (p : SimulatedParcel) (r : RouteResponse)
    (dt mult now : ℚ) (hstate : p.state = ParcelState.TRANSIT)
    (hroute : p.route = some r) (hpath : p.routePath ≠ []) :
    (updateParcelPosition p dt mult now).state =
      (if (advanceProgress p r dt mult).geRat (99 / 100) then ParcelState.DELIVERED
       else p.state) := by
  simp only [updateParcelPosition, hroute]
  rw [if_neg]
  · rfl
  · simp [hstate, hpath]

theorem advance_actualArrival_eq (p : SimulatedParcel) (r : RouteResponse)
    (dt mult now : ℚ) (hstate : p.state = ParcelState.TRANSIT)
    (hroute : p.route = some r) (hpath : p.routePath ≠ []) :
    (updateParcelPosition p dt mult now).actualArrival =
      (if (advanceProgress p r dt mult).geRat (99 / 100) then some now
       else p.actualArrival) := by
  simp only [updateParcelPosition, hroute]
  rw [if_neg]
  · rfl
  · simp [hstate, hpath]

/-- The guard of `updateParcelPosition`: anything other than a TRANSIT parcel
with a route and a non-empty path is returned unchanged. -/
theorem advance_guard (p : SimulatedParcel) (dt mult now : ℚ)
    (h : p.state ≠ ParcelState.TRANSIT ∨ p.routePath = []) :
    updateParcelPosition p dt mult now = p := by
  unfold updateParcelPosition
  cases hr : p.route with
  | none => rfl
  | some r =>
      dsimp only
      rw [if_pos h]

/-! ## Claim C1 -/

/-- Claim C1: on a TRANSIT parcel with an assigned route of positive total
distance, a non-empty path, nonnegative speed and progress within the unit
interval, `updateParcelPosition` with `deltaTime ≥ 0` and
`speedMultiplier ≥ 0` yields a finite progress that is at least the input
progress and lies in `[0, 1]`. -/
theorem advance_progress_monotone_in_unit
    (p : SimulatedParcel) (r : RouteResponse) (q dt mult now : ℚ)
    (hstate : p.state = ParcelState.TRANSIT)
    (hroute : p.route = some r)
    (hpath : p.routePath ≠ [])
    (hprog : p.progress = JSNum.fin q)
    (hq0 : 0 ≤ q) (hq1 : q ≤ 1)
    (hspeed : 0 ≤ p.speed)
    (hdist : 0 < r.totalDistanceKm)
    (hdt : 0 ≤ dt) (hmult : 0 ≤ mult) :
    ∃ q', (updateParcelPosition p dt mult now).progress = JSNum.fin q' ∧
      q ≤ q' ∧ 0 ≤ q' ∧ q' ≤ 1 := by
  rw [advance_progress_eq p r dt mult now hstate hroute hpath]
  have hh : (0 : ℚ) ≤ dt / 1000 / 60 / 60 :=
    div_nonneg (div_nonneg (div_nonneg hdt (by norm_num)) (by norm_num)) (by norm_num)
  have hd : 0 ≤ p.speed * mult * (dt / 1000 / 60 / 60) :=
    mul_nonneg (mul_nonneg hspeed hmult) hh
  have hinc : 0 ≤ p.speed * mult * (dt / 1000 / 60 / 60) / r.totalDistanceKm :=
    div_nonneg hd hdist.le
  refine ⟨min (q + p.speed * mult * (dt / 1000 / 60 / 60) / r.totalDistanceKm) 1,
    ?_, ?_, ?_, ?_⟩
  · simp [advanceProgress, hprog, JSNum.add, JSNum.divFin, hdist.ne', JSNum.min1]
  · exact le_min (by linarith) hq1
  · exact le_min (by linarith) (by norm_num)
  · exact min_le_right _ _

/-- Witness for C1 at the concrete scenario parcel. -/
theorem advance_progress_monotone_in_unit_witness :
    ∃ q', (updateParcelPosition parcelA 900000 1 0).progress = JSNum.fin q' ∧
      0 ≤ q' ∧ 0 ≤ q' ∧ q' ≤ 1 :=
  advance_progress_monotone_in_unit parcelA routeA 0 900000 1 0 rfl rfl
    (by simp [parcelA, pathA]) rfl le_rfl (by norm_num) (by norm_num [parcelA])
    (by norm_num [routeA]) (by norm_num) (by norm_num)

/-! ## Claim C2 -/

/-- Claim C2: a TRANSIT parcel with a route and non-empty path is marked
DELIVERED with `actualArrival` stamped exactly when the newly computed
progress passes the `0.99` threshold; at the scenario inputs (speed 40,
total distance 10, progress 0, deltaTime 900000 ms, multiplier 1) one call
yields progress exactly 1 and DELIVERED, while computed progress `0.989`
stays TRANSIT and `0.991` is DELIVERED. -/
theorem advance_delivery_threshold
    (p : SimulatedParcel) (r : RouteResponse) (dt mult now : ℚ)
    (hstate : p.state = ParcelState.TRANSIT)
    (hroute : p.route = some r)
    (hpath : p.routePath ≠ []) :
    ((updateParcelPosition p dt mult now).state = ParcelState.DELIVERED ↔
      (updateParcelPosition p dt mult now).progress.geRat (99 / 100) = true) ∧
    ((updateParcelPosition p dt mult now).state = ParcelState.DELIVERED →
      (updateParcelPosition p dt mult now).actualArrival = some now) ∧
    ((updateParcelPosition p dt mult now).state ≠ ParcelState.DELIVERED →
      (updateParcelPosition p dt mult now).actualArrival = p.actualArrival) ∧
    ((updateParcelPosition parcelA 900000 1 0).progress = JSNum.fin 1 ∧
      (updateParcelPosition parcelA 900000 1 0).state = ParcelState.DELIVERED) ∧
    ((updateParcelPosition parcelA 890100 1 0).progress = JSNum.fin (989 / 1000) ∧
      (updateParcelPosition parcelA 890100 1 0).state = ParcelState.TRANSIT) ∧
    ((updateParcelPosition parcelA 891900 1 0).progress = JSNum.fin (991 / 1000) ∧
      (updateParcelPosition parcelA 891900 1 0).state = ParcelState.DELIVERED) := by
  rw [advance_progress_eq p r dt mult now hstate hroute hpath,
    advance_state_eq p r dt mult now hstate hroute hpath,
    advance_actualArrival_eq p r dt mult now hstate hroute hpath]
  refine ⟨?_, ?_, ?_, ?_, ?_, ?_⟩
  · cases hb : (advanceProgress p r dt mult).geRat (99 / 100) <;> simp [hb, hstate]
  · cases hb : (advanceProgress p r dt mult).geRat (99 / 100) <;> simp [hb, hstate]
  · cases hb : (advanceProgress p r dt mult).geRat (99 / 100) <;> simp [hb, hstate]
  · constructor <;>
      norm_num [updateParcelPosition, parcelA, routeA, pathA, JSNum.divFin,
        JSNum.add, JSNum.min1, JSNum.geRat, List.cons_ne_nil]
  · constructor <;>
      norm_num [updateParcelPosition, parcelA, routeA, pathA, JSNum.divFin,
        JSNum.add, JSNum.min1, JSNum.geRat, List.cons_ne_nil]
  · constructor <;>
      norm_num [updateParcelPosition, parcelA, routeA, pathA, JSNum.divFin,
        JSNum.add, JSNum.min1, JSNum.geRat, List.cons_ne_nil]

/-- Witness for C2: the threshold equivalence at the scenario parcel. -/
theorem advance_delivery_threshold_witness :
    (updateParcelPosition parcelA 900000 1 0).state = ParcelState.DELIVERED ↔
      (updateParcelPosition parcelA 900000 1 0).progress.geRat (99 / 100) = true :=
  (advance_delivery_threshold parcelA routeA 900000 1 0 rfl rfl
    (by simp [parcelA, pathA])).1

/-! ## Claim C4 -/

/-- The scenario route with a total distance of zero. -/
def routeZeroDist : RouteResponse := { routeA with totalDistanceKm := 0 }

/-- A TRANSIT parcel riding the zero-distance route. -/
def parcelZeroDist : SimulatedParcel := { parcelA with route := some routeZeroDist }

/-- Claim C4 fails on the code: with a zero total route distance nothing
guards the division. A positive frame distance gives increment
`10 / 0 = Infinity`, `Math.min` clamps the new progress to `1` and the
parcel is DELIVERED instead of unmoved; a zero frame distance gives
`0 / 0 = NaN`, which is stored as the new progress. -/
theorem advance_zero_distance_delivers :
    parcelZeroDist.progress = JSNum.fin 0 ∧
    parcelZeroDist.state = ParcelState.TRANSIT ∧
    (updateParcelPosition parcelZeroDist 900000 1 0).progress = JSNum.fin 1 ∧
    (updateParcelPosition parcelZeroDist 900000 1 0).state = ParcelState.DELIVERED ∧
    (updateParcelPosition parcelZeroDist 0 1 0).progress = JSNum.nan ∧
    (updateParcelPosition parcelZeroDist 0 1 0).state = ParcelState.TRANSIT := by
  refine ⟨rfl, rfl, ?_, ?_, ?_, ?_⟩ <;>
    norm_num [updateParcelPosition, parcelZeroDist, parcelA, routeZeroDist, routeA,
      pathA, JSNum.divFin, JSNum.add, JSNum.min1, JSNum.geRat, List.cons_ne_nil]

/-! ## Claim C5 -/

/-- The reanchored parcel of the counterexample: an INCIDENT parcel. -/
def parcelIncidentC5 : SimulatedParcel := { parcelA with state := ParcelState.INCIDENT }

/-- Claim C5 as stated is false: `updateParcelRoute` also changes `state`,
setting it to TRANSIT, so on an INCIDENT parcel the state field differs. -/
theorem reanchor_changes_state :
    parcelIncidentC5.state = ParcelState.INCIDENT ∧
    (updateParcelRoute parcelIncidentC5 routeA pathA 0).state = ParcelState.TRANSIT ∧
    (updateParcelRoute parcelIncidentC5 routeA pathA 0).state ≠ parcelIncidentC5.state := by
  exact ⟨rfl, rfl, fun h =>
    (by decide : ParcelState.TRANSIT ≠ ParcelState.INCIDENT) h⟩

/-- Claim C5 amended: `updateParcelRoute` preserves `progress` exactly and
sets only `position` (re-interpolated at the same progress), `route`,
`path`, `estimatedArrival` and `state` (to TRANSIT); every other field is
unchanged. -/
theorem reanchor_progress_frame (p : SimulatedParcel) (r : RouteResponse)
    (path : List Position) (now : ℚ) :
    (updateParcelRoute p r path now).progress = p.progress ∧
    (updateParcelRoute p r path now).state = ParcelState.TRANSIT ∧
    (updateParcelRoute p r path now).route = some r ∧
    (updateParcelRoute p r path now).routePath = path ∧
    (updateParcelRoute p r path now).currentPosition =
      (interpolateAlongPath path p.progress.toFrac).position ∧
    (updateParcelRoute p r path now).estimatedArrival =
      some (now + r.estimatedDurationMin * 60 * 1000) ∧
    (updateParcelRoute p r path now).id = p.id ∧
    (updateParcelRoute p r path now).trackingCode = p.trackingCode ∧
    (updateParcelRoute p r path now).parcelData = p.parcelData ∧
    (updateParcelRoute p r path now).pathIndex = p.pathIndex ∧
    (updateParcelRoute p r path now).startTime = p.startTime ∧
    (updateParcelRoute p r path now).actualArrival = p.actualArrival ∧
    (updateParcelRoute p r path now).speed = p.speed ∧
    (updateParcelRoute p r path now).affectedByIncidents = p.affectedByIncidents :=
  ⟨rfl, rfl, rfl, rfl, rfl, rfl, rfl, rfl, rfl, rfl, rfl, rfl, rfl, rfl⟩

/-! ## Claim C6 -/

/-- Claim C6: on a PLANNED, INCIDENT or DELIVERED parcel, or one with an
empty path, `updateParcelPosition` returns the parcel unchanged, and so do
repeated calls. -/
theorem advance_noop_non_transit (p : SimulatedParcel)
    (dt mult now dt2 mult2 now2 : ℚ)
    (h : p.state = ParcelState.PLANNED ∨ p.state = ParcelState.INCIDENT ∨
      p.state = ParcelState.DELIVERED ∨ p.routePath = []) :
    updateParcelPosition p dt mult now = p ∧
    updateParcelPosition (updateParcelPosition p dt mult now) dt2 mult2 now2 = p := by
  have hg : p.state ≠ ParcelState.TRANSIT ∨ p.routePath = [] := by
    rcases h with h | h | h | h
    · exact Or.inl (by simp [h])
    · exact Or.inl (by simp [h])
    · exact Or.inl (by simp [h])
    · exact Or.inr h
  have h1 := advance_guard p dt mult now hg
  exact ⟨h1, by rw [h1]; exact advance_guard p dt2 mult2 now2 hg⟩

/-- A PLANNED copy of the scenario parcel. -/
def parcelPlanned : SimulatedParcel := { parcelA with state := ParcelState.PLANNED }

/-- Witness for C6 at a concrete PLANNED parcel. -/
theorem advance_noop_non_transit_witness :
    updateParcelPosition parcelPlanned 5 2 7 = parcelPlanned ∧
    updateParcelPosition (updateParcelPosition parcelPlanned 5 2 7) 3 1 9 = parcelPlanned :=
  advance_noop_non_transit parcelPlanned 5 2 7 3 1 9 (Or.inl rfl)

/-! ## Claim C3 -/

/-- The spec-side collision predicate (spec section 4.1, `detectCollision`):
unresolved, geofence contains the current position, id not already among the
triggered incidents. -/
def incidentQualifies (p : SimulatedParcel) (inc : Incident) : Bool :=
  !inc.resolved &&
    (isWithinRadius p.currentPosition inc.position (inc.radius / 1000) &&
      !(p.affectedByIncidents.contains inc.id))

/-- One step of the collision loop, as the source writes it. -/
theorem checkIncidentCollision_cons (p : SimulatedParcel) (a : Incident)
    (rest : List Incident) :
    checkIncidentCollision p (a :: rest) =
      if a.resolved then checkIncidentCollision p rest
      else if (isWithinRadius p.currentPosition a.position (a.radius / 1000) &&
          !(p.affectedByIncidents.contains a.id)) then some a
      else checkIncidentCollision p rest := rfl

/-- Claim C3: `checkIncidentCollision` returns exactly the first incident in
iteration (insertion) order that is unresolved, geometrically contains the
current position and is not yet triggered for the parcel, and `none`
precisely when no incident qualifies. In particular a resolved or
already-triggered incident is never returned, and of two qualifying
incidents the earlier-inserted one wins. -/
theorem checkIncidentCollision_first_qualifying (p : SimulatedParcel)
    (incs : List Incident) :
    (checkIncidentCollision p incs = none ↔
      ∀ inc ∈ incs, incidentQualifies p inc = false) ∧
    (∀ inc, checkIncidentCollision p incs = some inc →
      incidentQualifies p inc = true ∧
      ∃ pre post, incs = pre ++ inc :: post ∧
        ∀ j ∈ pre, incidentQualifies p j = false) := by
  induction incs with
  | nil => simp [checkIncidentCollision]
  | cons a rest ih =>
    cases hres : a.resolved with
    | true =>
      have hq' : incidentQualifies p a = false := by
        rw [incidentQualifies, hres, Bool.not_true, Bool.false_and]
      have hstep : checkIncidentCollision p (a :: rest) =
          checkIncidentCollision p rest := by
        rw [checkIncidentCollision_cons, if_pos hres]
      constructor
      · rw [hstep, ih.1]
        constructor
        · intro hall inc hmem
          rcases List.mem_cons.mp hmem with h | h
          · rw [h]; exact hq'
          · exact hall inc h
        · intro hall inc hmem
          exact hall inc (List.mem_cons_of_mem a hmem)
      · intro inc hsome
        rw [hstep] at hsome
        obtain ⟨hqi, pre, post, heq, hpre⟩ := ih.2 inc hsome
        refine ⟨hqi, a :: pre, post, by rw [heq]; rfl, ?_⟩
        intro j hj
        rcases List.mem_cons.mp hj with h | h
        · rw [h]; exact hq'
        · exact hpre j h
    | false =>
      cases hcond : (isWithinRadius p.currentPosition a.position (a.radius / 1000) &&
          !(p.affectedByIncidents.contains a.id)) with
      | true =>
        have hq : incidentQualifies p a = true := by
          rw [incidentQualifies, hres, Bool.not_false, Bool.true_and]
          exact hcond
        have hstep : checkIncidentCollision p (a :: rest) = some a := by
          rw [checkIncidentCollision_cons, if_neg (by simp [hres]), if_pos hcond]
        constructor
        · rw [hstep]
          constructor
          · intro h
            exact Option.noConfusion h
          · intro hall
            exact absurd hq (by simp [hall a (List.mem_cons_self a rest)])
        · intro inc hsome
          rw [hstep] at hsome
          injection hsome with hinc
          subst hinc
          refine ⟨hq, [], rest, rfl, ?_⟩
          intro j hj
          exact absurd hj (List.not_mem_nil j)
      | false =>
        have hq' : incidentQualifies p a = false := by
          rw [incidentQualifies, hres, Bool.not_false, Bool.true_and]
          exact hcond
        have hstep : checkIncidentCollision p (a :: rest) =
            checkIncidentCollision p rest := by
          rw [checkIncidentCollision_cons, if_neg (by simp [hres]),
            if_neg (by rw [hcond]; simp)]
        constructor
        · rw [hstep, ih.1]
          constructor
          · intro hall inc hmem
            rcases List.mem_cons.mp hmem with h | h
            · rw [h]; exact hq'
            · exact hall inc h
          · intro hall inc hmem
            exact hall inc (List.mem_cons_of_mem a hmem)
        · intro inc hsome
          rw [hstep] at hsome
          obtain ⟨hqi, pre, post, heq, hpre⟩ := ih.2 inc hsome
          refine ⟨hqi, a :: pre, post, by rw [heq]; rfl, ?_⟩
          intro j hj
          rcases List.mem_cons.mp hj with h | h
          · rw [h]; exact hq'
          · exact hpre j h

/-! ## Claim C7 -/

/-- A parcel added without a route (src/src/hooks/useSimulation.ts lines
262-291): `route = null`, empty path, PLANNED, speed 30, pinned at the
fallback hub position. -/
def parcelNoRoute : SimulatedParcel :=
  { id := "parcel-nr", trackingCode := "TRK-NR", parcelData := parcelDataA,
    route := none, routePath := [], currentPosition := ⟨4.05, 9.7⟩,
    state := ParcelState.PLANNED, progress := JSNum.fin 0, pathIndex := 0,
    startTime := none, estimatedArrival := none, actualArrival := none,
    speed := 30, affectedByIncidents := [] }

/-- A store holding only the routeless parcel. -/
def stateC7 : SimulationState :=
  { initialState with parcels := [("parcel-nr", parcelNoRoute)] }

/-- Claim C7 fails on the code: `startParcel` never checks for a route, so a
routeless PLANNED parcel is moved to TRANSIT, both by the engine function
and through the hook-level dispatch into the store. -/
theorem startParcel_ignores_missing_route :
    parcelNoRoute.route = none ∧
    parcelNoRoute.routePath = [] ∧
    parcelNoRoute.state = ParcelState.PLANNED ∧
    (startParcel parcelNoRoute 0).state = ParcelState.TRANSIT ∧
    (getEntry (startParcelAction stateC7 "parcel-nr" 0).parcels "parcel-nr").map
      SimulatedParcel.state = some ParcelState.TRANSIT := by
  refine ⟨rfl, rfl, rfl, rfl, ?_⟩
  simp [startParcelAction, stateC7, initialState, getEntry, simulationReducer,
    setEntry, mergeParcel, PartialParcel.ofParcel, startParcel, parcelNoRoute]

/-! ## Claim C8 -/

/-- An unresolved incident whose geofence covers the end of `pathA`. -/
def incidentAtEnd : Incident :=
  { id := "inc-1", type := IncidentType.TRAFFIC, position := ⟨1, 0⟩,
    radius := 200, affectedRouteIds := [], timestamp := 0, resolved := false,
    description := "traffic jam" }

/-- Claim C8 as stated is false: DELIVERED is not terminal across a tick.
The loop advances the scenario parcel to DELIVERED (progress 1) and then
still runs collision detection on it; the unresolved incident at the final
position makes the tick mark the freshly DELIVERED parcel INCIDENT. -/
theorem tick_moves_delivered_to_incident :
    (updateParcelPosition parcelA 900000 1 0).state = ParcelState.DELIVERED ∧
    (tickParcel parcelA [incidentAtEnd] 900000 1 0).state = ParcelState.INCIDENT := by
  constructor
  · norm_num [updateParcelPosition, parcelA, routeA, pathA, JSNum.divFin, JSNum.add,
      JSNum.min1, JSNum.geRat, List.cons_ne_nil]
  · norm_num [tickParcel, parcelA, routeA, pathA, updateParcelPosition,
      checkIncidentCollision, markParcelIncident, isWithinRadius, incidentAtEnd,
      JSNum.divFin, JSNum.add, JSNum.min1, JSNum.geRat, JSNum.toFrac,
      interpolateAlongPath, List.cons_ne_nil]

/-- Claim C8 amended: each engine operation follows the one-directional
chain from its intended source state (`startParcel` yields TRANSIT,
`markParcelIncident` yields INCIDENT, `updateParcelRoute` yields TRANSIT,
`updateParcelPosition` is the identity off TRANSIT and can only keep TRANSIT
or reach DELIVERED), and a tick leaves non-TRANSIT parcels alone; but the
tick marks any colliding advanced parcel INCIDENT, even one that just
reached DELIVERED. -/
theorem state_machine_edges (p : SimulatedParcel) (r : RouteResponse)
    (path : List Position) (incs : List Incident) (iid : String)
    (dt mult now : ℚ) :
    (startParcel p now).state = ParcelState.TRANSIT ∧
    (markParcelIncident p iid).state = ParcelState.INCIDENT ∧
    (updateParcelRoute p r path now).state = ParcelState.TRANSIT ∧
    (p.state ≠ ParcelState.TRANSIT → updateParcelPosition p dt mult now = p) ∧
    (p.state = ParcelState.TRANSIT →
      (updateParcelPosition p dt mult now).state = ParcelState.TRANSIT ∨
      (updateParcelPosition p dt mult now).state = ParcelState.DELIVERED) ∧
    (p.state ≠ ParcelState.TRANSIT → tickParcel p incs dt mult now = p) ∧
    (p.state = ParcelState.TRANSIT →
      ∀ inc, checkIncidentCollision (updateParcelPosition p dt mult now) incs = some inc →
        (tickParcel p incs dt mult now).state = ParcelState.INCIDENT) := by
  refine ⟨rfl, rfl, rfl, ?_, ?_, ?_, ?_⟩
  · intro h
    exact advance_guard p dt mult now (Or.inl h)
  · intro h
    cases hroute : p.route with
    | none =>
        left
        rw [show updateParcelPosition p dt mult now = p from by
          unfold updateParcelPosition; rw [hroute]]
        exact h
    | some r =>
        by_cases hpath : p.routePath = []
        · left
          rw [advance_guard p dt mult now (Or.inr hpath)]
          exact h
        · rw [advance_state_eq p r dt mult now h hroute hpath]
          cases hb : (advanceProgress p r dt mult).geRat (99 / 100)
          · left; simp [hb, h]
          · right; simp [hb]
  · intro h
    simp only [tickParcel, if_neg h]
  · intro h inc hsome
    simp only [tickParcel, if_pos h]
    rw [hsome]
    rfl

/-! ## Claim C9 -/

/-- Claim C9: when the decoded route geometry has fewer than 2 points (an
empty sequence included), the route branch of `addParcel` fails with a
user-facing message and dispatches nothing: the store is unchanged. -/
theorem addParcel_short_geometry_aborts (decode : String → List Position)
    (st : SimulationState) (parcelData : ParcelData) (route : RouteResponse)
    (now : ℚ) (h : (decode route.routeGeometry).length < 2) :
    (∃ msg, addParcelWithRoute decode parcelData route now = Except.error msg) ∧
    addParcelEffect decode st parcelData route now = st := by
  have herr : ∃ msg, addParcelWithRoute decode parcelData route now =
      Except.error msg := by
    unfold addParcelWithRoute
    cases h1 : route.routeGeometry.isEmpty with
    | true => exact ⟨_, rfl⟩
    | false =>
      rw [if_neg (by decide)]
      cases h2 : containsLineString route.routeGeometry with
      | false => exact ⟨_, by rw [if_pos (by decide)]⟩
      | true =>
        rw [if_neg (by decide)]
        dsimp only
        by_cases h3 : (decode route.routeGeometry).length = 0
        · exact ⟨_, by rw [if_pos h3]⟩
        · exact ⟨_, by rw [if_neg h3, if_pos h]⟩
  obtain ⟨msg, hmsg⟩ := herr
  refine ⟨⟨msg, hmsg⟩, ?_⟩
  unfold addParcelEffect
  rw [hmsg]

/-- The failing Geometry Collaborator: decodes every input to the empty
point sequence. -/
def decodeFail : String → List Position := fun _ => []

/-- Witness for C9 at a concrete store and route. -/
theorem addParcel_short_geometry_aborts_witness :
    (∃ msg, addParcelWithRoute decodeFail parcelDataA routeA 0 = Except.error msg) ∧
    addParcelEffect decodeFail initialState parcelDataA routeA 0 = initialState :=
  addParcel_short_geometry_aborts decodeFail initialState parcelDataA routeA 0
    (by simp [decodeFail])

/-! ## Claim C10 -/

/-- Claim C10: `UPDATE_PARCEL` and `RESOLVE_INCIDENT` on an id absent from
the respective map leave the store unchanged entry for entry (the source
allocates a fresh `Map` holding exactly the old entries), without creating
an entry or raising an error. -/
theorem reducer_unknown_id_noop (st : SimulationState) (pid iid : String)
    (u : PartialParcel) :
    (getEntry st.parcels pid = none →
      simulationReducer st (SimulationAction.UPDATE_PARCEL pid u) = st) ∧
    (getEntry st.incidents iid = none →
      simulationReducer st (SimulationAction.RESOLVE_INCIDENT iid) = st) := by
  constructor
  · intro h
    simp only [simulationReducer, h]
  · intro h
    simp only [simulationReducer, h]

end RoutageSim
